import Mathlib

/-!
Shallow embedding of the Ollama-MCP-Server execution core, translated from:
  src/ollama_mcp_server/tools/base_tool.py   (BaseTool: validation, cache, execute)
  mcp_devops_server/tools/registry.py        (ToolRegistry: register, dispatch, health checks)
  src/ollama_mcp_server/tools/mcp_gateway.py (gateway connect / list-tools / list-resources)

Python dictionaries are modelled as association lists (insertion-ordered, unique
keys in well-formed states); machine time is an abstract tick counter threaded
through the state-passing functions; `asyncio` behaviours (timeouts, gather) are
modelled by explicit durations attached to the effects of each capability.
-/

namespace OllamaMCP

/-- A Python runtime value, as far as the tool layer observes it.  `obj` stands
for an arbitrary non-JSON-serializable Python object (identified by a tag). -/
inductive PyValue where
  | null
  | bool (b : Bool)
  | int (n : Int)
  | str (s : String)
  | list (items : List PyValue)
  | dict (entries : List (String × PyValue))
  | obj (tag : Nat)
deriving Repr

/-- First-match lookup in an insertion-ordered dictionary (Python `d.get(k)`). -/
def dictGet {α : Type} : List (String × α) → String → Option α
  | [], _ => none
  | (k, v) :: rest, key => if k = key then some v else dictGet rest key

/-- Python `d[k] = v`: overwrite in place if the key exists, else append. -/
def dictSet {α : Type} : List (String × α) → String → α → List (String × α)
  | [], key, v => [(key, v)]
  | (k, w) :: rest, key, v =>
      if k = key then (k, v) :: rest else (k, w) :: dictSet rest key v

/-- Python `del d[k]`: remove the (first) binding of the key. -/
def dictErase {α : Type} : List (String × α) → String → List (String × α)
  | [], _ => []
  | (k, w) :: rest, key => if k = key then rest else (k, w) :: dictErase rest key

/-- JSON string escaping for one character (backslash and quote; other
characters pass through unchanged in this model). -/
def escChar (c : Char) : String :=
  if c = '\\' then "\\\\" else if c = '\"' then "\\\"" else String.singleton c

/-- Rendered JSON string literal: `"..."` with escaping. -/
def quoteStr (s : String) : String :=
  "\"" ++ String.join (s.data.map escChar) ++ "\""

/-- Comma-space joined rendering, matching the default item separator of
`json.dumps`. -/
def joinComma (parts : List String) : String :=
  String.intercalate ", " parts

/-- Key order used by `json.dumps(..., sort_keys=True)` on a rendered
entry list: compare the (unique) keys. -/
def keyLE (a b : String × String) : Prop := a.1 ≤ b.1

instance : DecidableRel keyLE := fun a b => inferInstanceAs (Decidable (a.1 ≤ b.1))

instance : IsTotal (String × String) keyLE := ⟨fun a b => le_total a.1 b.1⟩

instance : IsTrans (String × String) keyLE := ⟨fun _ _ _ h h2 => le_trans h h2⟩

/-- Sort the rendered entries of an object by key, as `sort_keys=True` does. -/
def sortKVs (kvs : List (String × String)) : List (String × String) :=
  List.insertionSort keyLE kvs

/-- Render one sorted entry as `"key": value`. -/
def renderKV (kv : String × String) : String :=
  quoteStr kv.1 ++ ": " ++ kv.2

mutual

/-- Model of `json.dumps(v, sort_keys=True)`: `none` models the `TypeError` raised on a
non-serializable object.  Objects render their entries sorted by key; since a
keys of a Python dict are unique, sorting the rendered entries by key is the same
as serializing the key-sorted items. -/
def dumpsVal : PyValue → Option String
  | .null => some "null"
  | .bool true => some "true"
  | .bool false => some "false"
  | .int n => some (toString n)
  | .str s => some (quoteStr s)
  | .obj _ => none
  | .list items =>
      match dumpsList items with
      | none => none
      | some parts => some ("[" ++ joinComma parts ++ "]")
  | .dict entries =>
      match dumpsKVs entries with
      | none => none
      | some kvs =>
          some ("\x7b" ++ joinComma ((sortKVs kvs).map renderKV) ++ "\x7d")

/-- Serialize the elements of a JSON array, failing if any element fails. -/
def dumpsList : List PyValue → Option (List String)
  | [] => some []
  | v :: rest =>
      match dumpsVal v, dumpsList rest with
      | some s, some ss => some (s :: ss)
      | _, _ => none

/-- Render the value of each object entry, keeping insertion order and keys. -/
def dumpsKVs : List (String × PyValue) → Option (List (String × String))
  | [] => some []
  | (k, v) :: rest =>
      match dumpsVal v, dumpsKVs rest with
      | some s, some ss => some ((k, s) :: ss)
      | _, _ => none

end

/-- The `str` of the `TypeError` that `json.dumps` raises on an `obj`. -/
def notSerializableMsg : String := "Object of type object is not JSON serializable"

/-- Model of `BaseTool.get_cache_key` (base_tool.py lines 148-163): the MD5 hex digest of
the canonical serialization, prefixed by the tool name.  The hash itself is an
external primitive, passed in as `md5_hexdigest`; a raising `json.dumps`
propagates as the error case. -/
def get_cache_key (md5_hexdigest : String → String) (name : String)
    (arguments : List (String × PyValue)) : Except String String :=
  match dumpsVal (.dict arguments) with
  | none => .error notSerializableMsg
  | some args_str => .ok (name ++ ":" ++ md5_hexdigest args_str)

/-! ## The execution engine: `BaseTool` (base_tool.py) -/

/-- The `config.tools` fields read by the engine (config/settings.py: defaults
`execution_timeout=300`, `enable_caching=True`, `cache_ttl=3600`). -/
structure ToolsConfig where
  execution_timeout : Int := 300
  enable_caching : Bool := true
  cache_ttl : Nat := 3600

/-- Model of `ToolExecutionContext` (base_tool.py lines 47-62). -/
structure ToolExecutionContext where
  user_id : Option String := none
  session_id : Option String := none
  trace_id : Option String := none
  timeout : Option Int := none

/-- Model of `ToolResult` (base_tool.py lines 30-44).  `execution_time` is kept in
abstract ticks. -/
structure ToolResult where
  success : Bool
  data : Option PyValue := none
  error : Option String := none
  metadata : Option (List (String × PyValue)) := none
  execution_time : Option Nat := none
deriving Repr

/-- One entry of `BaseTool._cache`: `{"result": ..., "timestamp": ...}`. -/
structure CacheEntry where
  result : PyValue
  timestamp : Nat
deriving Repr

/-- Model of `BaseTool._cache`: cache key to entry. -/
def Cache : Type := List (String × CacheEntry)

/-- An effect of a capability body: how long it runs and whether it returns a
value or raises (message).  This models one awaited call of an abstract
`_execute` / `health_check` coroutine. -/
structure Behavior (α : Type) where
  duration : Nat
  outcome : Except String α

/-- One concrete capability: its declared name, the `_execute` body (a function
of the validated arguments), and its `health_check` body. -/
structure Tool where
  name : String
  run : List (String × PyValue) → Behavior PyValue
  health_check : Behavior Bool

/-- Model of `BaseTool.validate_arguments` (lines 117-134): only an is-a-dict check. -/
def validate_arguments (arguments : PyValue) :
    Except String (List (String × PyValue)) :=
  match arguments with
  | .dict d => .ok d
  | _ => .error "Arguments must be a dictionary"

/-- Model of `BaseTool.should_cache_result` (lines 136-146). -/
def should_cache_result (config : ToolsConfig)
    (_arguments : List (String × PyValue)) : Bool :=
  config.enable_caching

/-- Python `x is not None`, the guard at base_tool.py line 241.  Only the
`None` singleton is `None`; a cached `None` value is indistinguishable from a
miss. -/
def is_not_none : PyValue → Bool
  | .null => false
  | _ => true

/-- Model of `BaseTool.get_cached_result` (lines 165-187): returns the
still-valid cached value, evicting a stale entry on read; also returns the
cache state after the read.  `now` is the current clock reading
(`time.time()`).  The Python function returns `None` for disabled caching, a
missing key and a stale entry, and returns `cached_entry["result"]`
otherwise — so `.null` stands both for a miss and for a cached `None`. -/
def get_cached_result (config : ToolsConfig) (cache : Cache) (now : Nat)
    (cache_key : String) : PyValue × Cache :=
  if !config.enable_caching then (.null, cache)
  else
    match dictGet cache cache_key with
    | none => (.null, cache)
    | some entry =>
        if now - entry.timestamp > config.cache_ttl then
          (.null, dictErase cache cache_key)
        else
          (entry.result, cache)

/-- Model of `BaseTool.cache_result` (lines 189-203): store the result with the current
timestamp. -/
def cache_result (config : ToolsConfig) (cache : Cache) (now : Nat)
    (cache_key : String) (result : PyValue) : Cache :=
  if !config.enable_caching then cache
  else dictSet cache cache_key { result := result, timestamp := now }

/-- The deadline chosen at base_tool.py line 252:
`timeout = context.timeout or self.config.tools.execution_timeout`.
the `or` of Python falls through on falsy values, i.e. on `None` and on `0`. -/
def effective_timeout (context : ToolExecutionContext) (config : ToolsConfig) :
    Int :=
  match context.timeout with
  | none => config.execution_timeout
  | some t => if t = 0 then config.execution_timeout else t

/-- What one `execute` call produces: the returned `ToolResult`, the cache
state after the call, and whether the `_execute` body of the capability was
invoked (reached line 254). -/
structure ExecOutcome where
  result : ToolResult
  cache : Cache
  ran : Bool

/-- Lines 251-291 of `BaseTool.execute`: run the body under `asyncio.wait_for`
with the effective deadline; a body outliving the deadline raises
`TimeoutError` (re-raised at line 259 and caught by the enclosing handler); a
raising body propagates its message; a returning body is cached (when a cache
key was computed) and wrapped in a success result.  Failures are already
converted here into the result the lines 293-324 handler returns, with
`execution_time` equal to the elapsed ticks at the moment of the raise. -/
def runPhase (tool : Tool) (config : ToolsConfig)
    (validated_args : List (String × PyValue)) (context : ToolExecutionContext)
    (cache : Cache) (now : Nat) (cache_key : Option String) : ExecOutcome :=
  let timeout := effective_timeout context config
  let b := tool.run validated_args
  if (b.duration : Int) > timeout then
    { result := { success := false,
                  error := some ("Tool execution timed out after " ++
                    toString timeout ++ " seconds"),
                  execution_time := some timeout.toNat },
      cache := cache, ran := true }
  else
    match b.outcome with
    | .error e =>
        { result := { success := false, error := some e,
                      execution_time := some b.duration },
          cache := cache, ran := true }
    | .ok result =>
        let cache2 :=
          match cache_key with
          | some k => cache_result config cache (now + b.duration) k result
          | none => cache
        { result := { success := true, data := some result,
                      execution_time := some b.duration },
          cache := cache2, ran := true }

/-- Model of `BaseTool.execute` (lines 205-324), state-passing over the cache and an
abstract clock `now`.  Every raise inside the `try` block (argument validation,
cache-key serialization, deadline, capability body) is caught and converted to
a `success=false` result carrying the error string and the elapsed time. -/
def execute (tool : Tool) (config : ToolsConfig)
    (md5_hexdigest : String → String) (arguments : PyValue)
    (context : Option ToolExecutionContext) (cache : Cache) (now : Nat) :
    ExecOutcome :=
  let ctx := context.getD {}
  match validate_arguments arguments with
  | .error e =>
      { result := { success := false, error := some e,
                    execution_time := some 0 },
        cache := cache, ran := false }
  | .ok validated_args =>
      if should_cache_result config validated_args then
        match get_cache_key md5_hexdigest tool.name validated_args with
        | .error e =>
            { result := { success := false, error := some e,
                          execution_time := some 0 },
              cache := cache, ran := false }
        | .ok cache_key =>
            let looked := get_cached_result config cache now cache_key
            -- line 241: `if cached_result is not None:`
            if is_not_none looked.1 then
              { result := { success := true, data := some looked.1,
                            execution_time := some 0,
                            metadata := some [("cached", .bool true)] },
                cache := looked.2, ran := false }
            else
              runPhase tool config validated_args ctx looked.2 now
                (some cache_key)
      else
        runPhase tool config validated_args ctx cache now none

/-! ## The registry: `ToolRegistry` (mcp_devops_server/tools/registry.py) -/

/-- Model of the `ToolRegistry` state: `_tools` (name to capability) and `_categories`
(category name to list of tool names).  `_tool_classes` mirrors `_tools`
key-for-key and is not modelled separately. -/
structure ToolRegistry where
  tools : List (String × Tool) := []
  categories : List (String × List String) := []

/-- The per-entry category update of `ToolRegistry.register_tool` (registry.py
lines 54-55): on the entry of `category`, append `tool_name` unless already
present; leave other entries alone. -/
def add_to_category (tool_name category : String)
    (p : String × List String) : String × List String :=
  if p.1 = category then
    (p.1, if tool_name ∈ p.2 then p.2 else p.2 ++ [tool_name])
  else p

/-- Model of `ToolRegistry.register_tool` (registry.py lines 29-62): overwrite the name
binding, create the category on first use, and append the name to the category
list only if absent.  (The update is written as a map over the entries; keys
are unique in every reachable state, so this is the Python single-slot
update.) -/
def register_tool (reg : ToolRegistry) (tool : Tool) (category : String) :
    ToolRegistry :=
  let tool_name := tool.name
  let tools := dictSet reg.tools tool_name tool
  let categories0 :=
    if (dictGet reg.categories category).isNone then
      reg.categories ++ [(category, [])]
    else reg.categories
  { tools := tools,
    categories := categories0.map (add_to_category tool_name category) }

/-- Model of `ToolRegistry.unregister_tool` (registry.py lines 64-87): remove the name
binding and drop the name from every category list; report whether anything
was removed. -/
def unregister_tool (reg : ToolRegistry) (tool_name : String) :
    Bool × ToolRegistry :=
  if (dictGet reg.tools tool_name).isNone then (false, reg)
  else
    (true,
     { tools := dictErase reg.tools tool_name,
       categories := reg.categories.map (fun p => (p.1, p.2.erase tool_name)) })

/-- Model of `ToolRegistry.get_tool` (registry.py lines 89-99). -/
def get_tool (reg : ToolRegistry) (tool_name : String) : Option Tool :=
  dictGet reg.tools tool_name

/-- Model of `ToolRegistry.get_tools_by_category` (registry.py lines 128-138). -/
def get_tools_by_category (reg : ToolRegistry) (category : String) :
    List String :=
  (dictGet reg.categories category).getD []

/-- Model of `ToolRegistry.is_tool_registered` (registry.py lines 140-150). -/
def is_tool_registered (reg : ToolRegistry) (tool_name : String) : Bool :=
  (dictGet reg.tools tool_name).isSome

/-- Model of `ToolRegistry.execute_tool` (registry.py lines 152-176): raise `ValueError`
("Tool not found: ...") for an unknown name, otherwise delegate to the
`execute` of the tool.  The raise is the `Except.error` case; it is not wrapped in a
`ToolResult`. -/
def execute_tool (reg : ToolRegistry) (config : ToolsConfig)
    (md5_hexdigest : String → String) (tool_name : String)
    (arguments : PyValue) (context : Option ToolExecutionContext)
    (cache : Cache) (now : Nat) : Except String ExecOutcome :=
  match get_tool reg tool_name with
  | none => .error ("Tool not found: " ++ tool_name)
  | some tool => .ok (execute tool config md5_hexdigest arguments context cache now)

/-- Inner `check_tool` of `ToolRegistry.health_check_all` (registry.py lines
190-200): a raising health check is caught and reported as `false`. -/
def check_tool (tool_name : String) (tool : Tool) : String × Bool :=
  match tool.health_check.outcome with
  | .ok result => (tool_name, result)
  | .error _ => (tool_name, false)

/-- Completion time of `asyncio.gather` over all health checks: the longest
individual check. -/
def hc_max_duration (reg : ToolRegistry) : Nat :=
  (reg.tools.map (fun p => p.2.health_check.duration)).foldr max 0

/-- Model of `ToolRegistry.health_check_all` (registry.py lines 178-243).  All checks
run concurrently; `asyncio.wait_for(gather(...), timeout=30.0)` returns every
result of every check iff the longest check finishes within the 30-tick deadline,
and otherwise raises `TimeoutError` before `health_results` has received any
entry, so the handler (lines 223-228) fills in `False` for every registered
tool. -/
def health_check_all (reg : ToolRegistry) : List (String × Bool) :=
  if hc_max_duration reg ≤ 30 then
    reg.tools.map (fun p => check_tool p.1 p.2)
  else
    reg.tools.map (fun p => (p.1, false))

/-! ## The gateway (src/ollama_mcp_server/tools/mcp_gateway.py) -/

/-- One value of `MCPGatewayManager.connected_servers`: the session handle is
an abstract token; `connection_info` repeats the call arguments and is not
modelled. -/
structure ServerEntry where
  session : Nat
  transport_type : String

/-- Model of the `MCPGatewayManager` shared state: the `connected_servers` table. -/
structure GatewayManager where
  connected_servers : List (String × ServerEntry) := []

/-- Outcomes of the external effects performed by one
`MCPGatewayConnect._execute` call: opening the transport
(`session_group.connect_to_server`), `session.initialize()`, and
`session.list_tools()` (tools as name/description pairs). -/
structure ConnectEffects where
  connect_to_server : Except String Nat
  session_init : Except String Unit
  list_tools : Except String (List (String × String))

/-- Model of `MCPGatewayConnect._execute` (mcp_gateway.py lines 92-162), state-passing
over the manager table.  Note the source order: the entry is stored into
`connected_servers` (line 131) before `session.initialize()` (line 138) and
`session.list_tools()` (line 141) run. -/
def mcp_gateway_connect (mgr : GatewayManager) (server_name : String)
    (transport_type : String) (fx : ConnectEffects) :
    Except String PyValue × GatewayManager :=
  if (dictGet mgr.connected_servers server_name).isSome then
    (.error ("Server \x27" ++ server_name ++ "\x27 is already connected"), mgr)
  else if transport_type ≠ "stdio" ∧ transport_type ≠ "sse" then
    -- no `else` branch in the source: line 131 reads the never-assigned
    -- local `session`
    (.error "cannot access local variable \x27session\x27 where it is not associated with a value",
     mgr)
  else
    match fx.connect_to_server with
    | .error e => (.error e, mgr)
    | .ok session =>
        let mgr2 : GatewayManager :=
          { connected_servers :=
              dictSet mgr.connected_servers server_name
                { session := session, transport_type := transport_type } }
        match fx.session_init with
        | .error e => (.error e, mgr2)
        | .ok _ =>
            match fx.list_tools with
            | .error e => (.error e, mgr2)
            | .ok tools =>
                (.ok (.dict
                  [("server_name", .str server_name),
                   ("transport_type", .str transport_type),
                   ("status", .str "connected"),
                   ("available_tools", .int tools.length),
                   ("tools", .list (tools.map fun t =>
                      .dict [("name", .str t.1),
                             ("description", .str t.2)]))]),
                 mgr2)

/-- The `servers_to_check` selection shared by `MCPGatewayListTools._execute`
(lines 305-309) and `MCPGatewayListResources._execute` (lines 456-460):
`{f: servers[f]} if server_filter and server_filter in servers else servers`.
An absent filter, an empty-string (falsy) filter, and a filter naming an
unconnected server all select every connected server. -/
def servers_to_check (mgr : GatewayManager) (server_filter : Option String) :
    List (String × ServerEntry) :=
  match server_filter with
  | none => mgr.connected_servers
  | some f =>
      if f = "" then mgr.connected_servers
      else
        match dictGet mgr.connected_servers f with
        | some entry => [(f, entry)]
        | none => mgr.connected_servers

/-- Per-server success/error status block built by
`MCPGatewayListTools._execute` (lines 311-343); upstream tools are modelled as
name/description pairs and their schemas are not modelled. -/
def list_tools_status (fx : String → Except String (List (String × String)))
    (server_name : String) : PyValue :=
  match fx server_name with
  | .ok ts =>
      .dict [("status", .str "success"),
             ("tools", .list (ts.map fun t =>
                .dict [("name", .str t.1), ("description", .str t.2)])),
             ("count", .int ts.length)]
  | .error e =>
      .dict [("status", .str "error"), ("error", .str e), ("count", .int 0)]

/-- Model of `MCPGatewayListTools._execute` (mcp_gateway.py lines 297-353).  `fx` gives
the `session.list_tools()` outcome of each connected server. -/
def mcp_gateway_list_tools (mgr : GatewayManager)
    (server_filter : Option String)
    (fx : String → Except String (List (String × String))) : PyValue :=
  let checked := servers_to_check mgr server_filter
  let all_tools := checked.map (fun p => (p.1, list_tools_status fx p.1))
  let total_tools : Nat := checked.foldr (fun p acc =>
    (match fx p.1 with | .ok ts => ts.length | .error _ => 0) + acc) 0
  .dict [("servers", .dict all_tools), ("total_tools", .int (total_tools : Int))]

/-- An upstream resource as rendered by the gateway: uri, name, description,
mime type. -/
structure ResourceInfo where
  uri : String
  name : String
  description : String
  mimeType : String

/-- Per-server status block built by `MCPGatewayListResources._execute`
(lines 462-491). -/
def list_resources_status (fx : String → Except String (List ResourceInfo))
    (server_name : String) : PyValue :=
  match fx server_name with
  | .ok rs =>
      .dict [("status", .str "success"),
             ("resources", .list (rs.map fun r =>
                .dict [("uri", .str r.uri), ("name", .str r.name),
                       ("description", .str r.description),
                       ("mimeType", .str r.mimeType)])),
             ("count", .int rs.length)]
  | .error e =>
      .dict [("status", .str "error"), ("error", .str e), ("count", .int 0)]

/-- Model of `MCPGatewayListResources._execute` (mcp_gateway.py lines 448-503). -/
def mcp_gateway_list_resources (mgr : GatewayManager)
    (server_filter : Option String)
    (fx : String → Except String (List ResourceInfo)) : PyValue :=
  let checked := servers_to_check mgr server_filter
  let all_resources := checked.map (fun p => (p.1, list_resources_status fx p.1))
  let total_resources : Nat := checked.foldr (fun p acc =>
    (match fx p.1 with | .ok rs => rs.length | .error _ => 0) + acc) 0
  .dict [("servers", .dict all_resources), ("total_resources", .int (total_resources : Int))]

/-! ## Operation sequences over the registry (for stating invariants) -/

/-- One mutating registry operation. -/
inductive RegOp where
  | reg (tool : Tool) (category : String)
  | unreg (tool_name : String)

/-- Apply one operation to a registry. -/
def applyOp (reg : ToolRegistry) : RegOp → ToolRegistry
  | .reg t c => register_tool reg t c
  | .unreg n => (unregister_tool reg n).2

/-- Run a sequence of register/unregister operations from the empty registry. -/
def applyOps (ops : List RegOp) : ToolRegistry :=
  ops.foldl applyOp {}

/-! ## Concrete fixtures used by witnesses and counterexamples -/

/-- A stand-in for `hashlib.md5(...).hexdigest()`: some fixed 32-character hex
string. -/
def md5stub : String → String := fun _ => "0123456789abcdef0123456789abcdef"

/-- A capability that returns `7` after 2 ticks. -/
def toolEcho : Tool :=
  { name := "echo", run := fun _ => ⟨2, .ok (.int 7)⟩,
    health_check := ⟨0, .ok true⟩ }

/-- A capability that returns `None` after 1 tick. -/
def toolNone : Tool :=
  { name := "noop", run := fun _ => ⟨1, .ok .null⟩,
    health_check := ⟨0, .ok true⟩ }

/-- A capability whose body raises. -/
def toolRaise : Tool :=
  { name := "boom", run := fun _ => ⟨1, .error "kaboom"⟩,
    health_check := ⟨0, .ok true⟩ }

/-- A capability whose body takes 10 ticks. -/
def toolSlowRun : Tool :=
  { name := "slow", run := fun _ => ⟨10, .ok .null⟩,
    health_check := ⟨0, .ok true⟩ }

/-- A capability whose health check resolves to `true` after 1 tick. -/
def toolFastHC : Tool :=
  { name := "a", run := fun _ => ⟨0, .ok .null⟩,
    health_check := ⟨1, .ok true⟩ }

/-- A capability whose health check resolves to `true` only after 100 ticks. -/
def toolSlowHC : Tool :=
  { name := "b", run := fun _ => ⟨0, .ok .null⟩,
    health_check := ⟨100, .ok true⟩ }

/-- A capability whose health check raises. -/
def toolBadHC : Tool :=
  { name := "c", run := fun _ => ⟨0, .ok .null⟩,
    health_check := ⟨1, .error "down"⟩ }

/-- A capability named `t` for the category-membership counterexample. -/
def toolT : Tool :=
  { name := "t", run := fun _ => ⟨0, .ok .null⟩,
    health_check := ⟨0, .ok true⟩ }

/-- A registry holding only `toolEcho`. -/
def regOne : ToolRegistry := { tools := [("echo", toolEcho)] }

/-- A registry with one fast and one slow health check. -/
def regC4 : ToolRegistry := { tools := [("a", toolFastHC), ("b", toolSlowHC)] }

/-! ## Helper lemmas -/

theorem dictGet_dictSet_self {α : Type} (l : List (String × α)) (k : String)
    (v : α) : dictGet (dictSet l k v) k = some v := by
  induction l with
  | nil => simp [dictSet, dictGet]
  | cons p rest ih =>
      obtain ⟨k2, w⟩ := p
      by_cases h : k2 = k
      · simp [dictSet, dictGet, h]
      · simp [dictSet, dictGet, h, ih]

theorem dumpsKVs_map_fst : ∀ {l : List (String × PyValue)}
    {kvs : List (String × String)},
    dumpsKVs l = some kvs → kvs.map Prod.fst = l.map Prod.fst := by
  intro l
  induction l with
  | nil =>
      intro kvs h
      simp only [dumpsKVs] at h
      rw [← Option.some_inj.mp h]
      rfl
  | cons p rest ih =>
      intro kvs h
      obtain ⟨k, v⟩ := p
      simp only [dumpsKVs] at h
      cases hv : dumpsVal v with
      | none => rw [hv] at h; cases h
      | some s =>
          cases hr : dumpsKVs rest with
          | none => rw [hv, hr] at h; cases h
          | some ss =>
              rw [hv, hr] at h
              rw [← Option.some_inj.mp h]
              simp [ih hr]

theorem dumpsKVs_perm {l₁ l₂ : List (String × PyValue)} (h : l₁.Perm l₂) :
    (dumpsKVs l₁ = none ∧ dumpsKVs l₂ = none) ∨
    (∃ kvs₁ kvs₂, dumpsKVs l₁ = some kvs₁ ∧ dumpsKVs l₂ = some kvs₂ ∧
      kvs₁.Perm kvs₂) := by
  induction h with
  | nil => exact .inr ⟨[], [], rfl, rfl, .nil⟩
  | cons x hrest ih =>
      obtain ⟨k, v⟩ := x
      cases hv : dumpsVal v with
      | none =>
          left
          constructor <;> simp [dumpsKVs, hv]
      | some s =>
          rcases ih with ⟨h1, h2⟩ | ⟨a, b, ha, hb, hab⟩
          · left
            constructor <;> simp [dumpsKVs, hv, h1, h2]
          · right
            exact ⟨(k, s) :: a, (k, s) :: b, by simp [dumpsKVs, hv, ha],
              by simp [dumpsKVs, hv, hb], hab.cons _⟩
  | swap x y l =>
      obtain ⟨k1, v1⟩ := x
      obtain ⟨k2, v2⟩ := y
      cases hv1 : dumpsVal v1 with
      | none => left; constructor <;> simp [dumpsKVs, hv1]
      | some s1 =>
          cases hv2 : dumpsVal v2 with
          | none => left; constructor <;> simp [dumpsKVs, hv1, hv2]
          | some s2 =>
              cases hl : dumpsKVs l with
              | none => left; constructor <;> simp [dumpsKVs, hv1, hv2, hl]
              | some ss =>
                  right
                  exact ⟨(k2, s2) :: (k1, s1) :: ss, (k1, s1) :: (k2, s2) :: ss,
                    by simp [dumpsKVs, hv1, hv2, hl],
                    by simp [dumpsKVs, hv1, hv2, hl],
                    List.Perm.swap _ _ _⟩
  | trans h1 h2 ih1 ih2 =>
      rcases ih1 with ⟨a1, a2⟩ | ⟨x1, x2, hx1, hx2, hx⟩
      · rcases ih2 with ⟨b1, b2⟩ | ⟨y1, y2, hy1, hy2, hy⟩
        · exact .inl ⟨a1, b2⟩
        · rw [a2] at hy1; cases hy1
      · rcases ih2 with ⟨b1, b2⟩ | ⟨y1, y2, hy1, hy2, hy⟩
        · rw [hx2] at b1; cases b1
        · right
          rw [hx2] at hy1
          have hmid : x2 = y1 := Option.some_inj.mp hy1
          subst hmid
          exact ⟨x1, y2, hx1, hy2, hx.trans hy⟩

theorem sortKVs_perm_eq {kvs₁ kvs₂ : List (String × String)}
    (hp : kvs₁.Perm kvs₂) (hnd : (kvs₁.map Prod.fst).Nodup) :
    sortKVs kvs₁ = sortKVs kvs₂ := by
  have hperm : (sortKVs kvs₁).Perm (sortKVs kvs₂) :=
    (List.perm_insertionSort keyLE kvs₁).trans
      (hp.trans (List.perm_insertionSort keyLE kvs₂).symm)
  have hnd1 : ((sortKVs kvs₁).map Prod.fst).Nodup :=
    hnd.perm ((List.perm_insertionSort keyLE kvs₁).map Prod.fst).symm
  have hnd2 : ((sortKVs kvs₂).map Prod.fst).Nodup :=
    hnd1.perm (hperm.map Prod.fst)
  have key_lt : ∀ (l : List (String × String)), List.Sorted keyLE l →
      (l.map Prod.fst).Nodup →
      List.Sorted (fun a b : String × String => a.1 < b.1) l := by
    intro l hs hn
    have hne : List.Pairwise (fun a b : String × String => a.1 ≠ b.1) l :=
      List.pairwise_map.mp hn
    exact (hs.and hne).imp (fun h => lt_of_le_of_ne h.1 h.2)
  haveI : IsAntisymm (String × String) (fun a b => a.1 < b.1) :=
    ⟨fun a b h1 h2 => absurd (lt_trans h1 h2) (lt_irrefl _)⟩
  exact List.eq_of_perm_of_sorted hperm
    (key_lt _ (List.sorted_insertionSort keyLE kvs₁) hnd1)
    (key_lt _ (List.sorted_insertionSort keyLE kvs₂) hnd2)

theorem dumps_dict_perm {e₁ e₂ : List (String × PyValue)} (hp : e₁.Perm e₂)
    (hnd : (e₁.map Prod.fst).Nodup) :
    dumpsVal (.dict e₁) = dumpsVal (.dict e₂) := by
  rcases dumpsKVs_perm hp with ⟨h1, h2⟩ | ⟨a, b, ha, hb, hab⟩
  · simp [dumpsVal, h1, h2]
  · have hfst : a.map Prod.fst = e₁.map Prod.fst := dumpsKVs_map_fst ha
    have hsort : sortKVs a = sortKVs b :=
      sortKVs_perm_eq hab (by rw [hfst]; exact hnd)
    simp [dumpsVal, ha, hb, hsort]

theorem dictGet_append {α : Type} (l₁ l₂ : List (String × α)) (k : String) :
    dictGet (l₁ ++ l₂) k =
      (match dictGet l₁ k with
       | some v => some v
       | none => dictGet l₂ k) := by
  induction l₁ with
  | nil => simp [dictGet]
  | cons p rest ih =>
      obtain ⟨k1, v1⟩ := p
      by_cases h : k1 = k
      · simp [dictGet, h]
      · simp [dictGet, h, ih]

theorem dictGet_isSome_map {α : Type} (l : List (String × α))
    (g : (String × α) → (String × α)) (hg : ∀ p, (g p).1 = p.1) (k : String) :
    (dictGet (l.map g) k).isSome = (dictGet l k).isSome := by
  induction l with
  | nil => rfl
  | cons p rest ih =>
      obtain ⟨k1, v1⟩ := p
      by_cases h : k1 = k
      · subst h
        rcases hgp : g (k1, v1) with ⟨qk, qv⟩
        have hqk : qk = k1 := by
          have := hg (k1, v1); rw [hgp] at this; exact this
        simp [dictGet, hgp, hqk]
      · rcases hgp : g (k1, v1) with ⟨qk, qv⟩
        have hqk : qk = k1 := by
          have := hg (k1, v1); rw [hgp] at this; exact this
        simp [dictGet, hgp, hqk, h, ih]

theorem nodup_append_single {l : List String} {a : String} (h : l.Nodup)
    (ha : a ∉ l) : (l ++ [a]).Nodup := by
  rw [List.nodup_append]
  refine ⟨h, List.nodup_singleton a, fun x hx hx2 => ?_⟩
  rw [List.mem_singleton] at hx2
  subst hx2
  exact ha hx

theorem add_to_category_nodup (n c : String) (p : String × List String)
    (h : p.2.Nodup) : (add_to_category n c p).2.Nodup := by
  unfold add_to_category
  by_cases h1 : p.1 = c
  · rw [if_pos h1]
    by_cases h2 : n ∈ p.2
    · rw [if_pos h2]; exact h
    · rw [if_neg h2]
      exact nodup_append_single h h2
  · rw [if_neg h1]; exact h

theorem add_to_category_idem (n c : String) (p : String × List String) :
    add_to_category n c (add_to_category n c p) = add_to_category n c p := by
  unfold add_to_category
  by_cases h1 : p.1 = c
  · rw [if_pos h1]
    by_cases h2 : n ∈ p.2
    · rw [if_pos h2, if_pos h1, if_pos h2]
    · rw [if_neg h2]
      have : n ∈ p.2 ++ [n] := List.mem_append.mpr (.inr (List.mem_singleton.mpr rfl))
      rw [if_pos h1, if_pos this]
  · rw [if_neg h1, if_neg h1]

theorem catInv_register (reg : ToolRegistry) (t : Tool) (c : String)
    (h : ∀ p ∈ reg.categories, p.2.Nodup) :
    ∀ p ∈ (register_tool reg t c).categories, p.2.Nodup := by
  intro p hp
  simp only [register_tool, List.mem_map] at hp
  obtain ⟨q, hq, hfq⟩ := hp
  have hqn : q.2.Nodup := by
    by_cases hcat : (dictGet reg.categories c).isNone
    · rw [if_pos hcat] at hq
      rcases List.mem_append.mp hq with h1 | h1
      · exact h q h1
      · rw [List.mem_singleton] at h1
        subst h1
        exact List.nodup_nil
    · rw [if_neg hcat] at hq
      exact h q hq
  rw [← hfq]
  exact add_to_category_nodup t.name c q hqn

theorem catInv_unregister (reg : ToolRegistry) (n : String)
    (h : ∀ p ∈ reg.categories, p.2.Nodup) :
    ∀ p ∈ ((unregister_tool reg n).2).categories, p.2.Nodup := by
  intro p hp
  simp only [unregister_tool] at hp
  by_cases hn : (dictGet reg.tools n).isNone
  · rw [if_pos hn] at hp
    exact h p hp
  · rw [if_neg hn] at hp
    simp only [List.mem_map] at hp
    obtain ⟨q, hq, hfq⟩ := hp
    rw [← hfq]
    exact (h q hq).erase n

theorem runPhase_shape (tool : Tool) (config : ToolsConfig)
    (va : List (String × PyValue)) (ctx : ToolExecutionContext) (cache : Cache)
    (now : Nat) (ck : Option String) :
    ((runPhase tool config va ctx cache now ck).result.success = true ∨
      ((runPhase tool config va ctx cache now ck).result.success = false ∧
       (runPhase tool config va ctx cache now ck).result.error.isSome = true)) ∧
    (runPhase tool config va ctx cache now ck).result.execution_time.isSome = true ∧
    (runPhase tool config va ctx cache now ck).ran = true := by
  unfold runPhase
  by_cases h : ((tool.run va).duration : Int) > effective_timeout ctx config
  · simp [h]
  · cases ho : (tool.run va).outcome with
    | error e => simp [h, ho]
    | ok v => simp [h, ho]

theorem execute_shape (tool : Tool) (config : ToolsConfig)
    (md5_hexdigest : String → String) (arguments : PyValue)
    (context : Option ToolExecutionContext) (cache : Cache) (now : Nat) :
    ((execute tool config md5_hexdigest arguments context cache now).result.success = true ∨
      ((execute tool config md5_hexdigest arguments context cache now).result.success = false ∧
       (execute tool config md5_hexdigest arguments context cache now).result.error.isSome = true)) ∧
    (execute tool config md5_hexdigest arguments context cache now).result.execution_time.isSome = true := by
  unfold execute
  split
  · simp
  · split
    · split
      · simp
      · dsimp only
        split
        · simp
        · exact ⟨(runPhase_shape ..).1, (runPhase_shape ..).2.1⟩
    · exact ⟨(runPhase_shape ..).1, (runPhase_shape ..).2.1⟩

/-! ## Claims -/

/-- C1: `execute` never raises to its caller: it always returns an
`ExecutionResult` with `execution_time` populated; whenever it reports
failure the error string is populated; non-dict arguments and a raising
capability body are converted into such failure results (the deadline case is
covered by the timeout theorem). -/
theorem C1_execute_never_raises (tool : Tool) (config : ToolsConfig)
    (md5_hexdigest : String → String) (arguments : PyValue)
    (context : Option ToolExecutionContext) (cache : Cache) (now : Nat) :
    (execute tool config md5_hexdigest arguments context cache now).result.execution_time.isSome = true ∧
    ((execute tool config md5_hexdigest arguments context cache now).result.success = false →
      (execute tool config md5_hexdigest arguments context cache now).result.error.isSome = true) ∧
    (∀ e, validate_arguments arguments = .error e →
      (execute tool config md5_hexdigest arguments context cache now).result =
        { success := false, error := some e, execution_time := some 0 } ∧
      (execute tool config md5_hexdigest arguments context cache now).ran = false) ∧
    (∀ d dur e, arguments = .dict d → should_cache_result config d = false →
      tool.run d = ⟨dur, .error e⟩ →
      (dur : Int) ≤ effective_timeout (context.getD {}) config →
      (execute tool config md5_hexdigest arguments context cache now).result =
        { success := false, error := some e, execution_time := some dur }) := by
  refine ⟨(execute_shape ..).2, ?_, ?_, ?_⟩
  · intro h
    rcases (execute_shape tool config md5_hexdigest arguments context cache now).1 with hs | ⟨_, he⟩
    · rw [h] at hs; cases hs
    · exact he
  · intro e he
    constructor <;> simp [execute, he]
  · intro d dur e hd hsc hrun hle
    subst hd
    simp [execute, validate_arguments, hsc, runPhase, hrun, not_lt.2 hle]

/-- C1 witness: at concrete inputs, a non-dict argument and a raising body both
come back as failure results. -/
theorem C1_witness :
    (execute toolRaise { enable_caching := false } md5stub (.str "bad") none [] 0).result =
      { success := false, error := some "Arguments must be a dictionary", execution_time := some 0 } ∧
    (execute toolRaise { enable_caching := false } md5stub (.dict []) none [] 0).result =
      { success := false, error := some "kaboom", execution_time := some 1 } := by
  refine ⟨((C1_execute_never_raises toolRaise { enable_caching := false } md5stub
      (.str "bad") none [] 0).2.2.1 _ rfl).1, ?_⟩
  exact (C1_execute_never_raises toolRaise { enable_caching := false } md5stub
      (.dict []) none [] 0).2.2.2 [] 1 "kaboom" rfl rfl rfl (by decide)

/-- C2: registry dispatch raises (`Except.error`, the `ValueError` of the
source) exactly for unregistered names, and for registered names returns the
result of the engine without raising. -/
theorem C2_dispatch_notfound (reg : ToolRegistry) (config : ToolsConfig)
    (md5_hexdigest : String → String) (n : String) (arguments : PyValue)
    (context : Option ToolExecutionContext) (cache : Cache) (now : Nat) :
    (get_tool reg n = none →
      execute_tool reg config md5_hexdigest n arguments context cache now =
        .error ("Tool not found: " ++ n)) ∧
    (∀ t, get_tool reg n = some t →
      execute_tool reg config md5_hexdigest n arguments context cache now =
        .ok (execute t config md5_hexdigest arguments context cache now)) := by
  constructor
  · intro h; simp [execute_tool, h]
  · intro t h; simp [execute_tool, h]

/-- C2 witness: the empty registry raises NotFound for `echo`; the registry
holding `echo` returns an `ExecutionResult`. -/
theorem C2_witness :
    execute_tool {} {} md5stub "echo" (.dict []) none [] 0 =
      .error ("Tool not found: " ++ "echo") ∧
    execute_tool regOne {} md5stub "echo" (.dict []) none [] 0 =
      .ok (execute toolEcho {} md5stub (.dict []) none [] 0) := by
  exact ⟨(C2_dispatch_notfound {} {} md5stub "echo" (.dict []) none [] 0).1 rfl,
         (C2_dispatch_notfound regOne {} md5stub "echo" (.dict []) none [] 0).2 toolEcho rfl⟩

/-- C9: when the optional `server_name` filter names a server that is not
connected, both gateway listing proxies fall back to enumerating every
connected server, exactly as with no filter. -/
theorem C9_filter_fallback (mgr : GatewayManager) (f : String)
    (fxT : String → Except String (List (String × String)))
    (fxR : String → Except String (List ResourceInfo))
    (h : dictGet mgr.connected_servers f = none) :
    mcp_gateway_list_tools mgr (some f) fxT = mcp_gateway_list_tools mgr none fxT ∧
    mcp_gateway_list_resources mgr (some f) fxR = mcp_gateway_list_resources mgr none fxR := by
  have hs : servers_to_check mgr (some f) = servers_to_check mgr none := by
    simp only [servers_to_check]
    by_cases hf : f = ""
    · simp [hf]
    · simp [hf, h]
  constructor
  · simp [mcp_gateway_list_tools, hs]
  · simp [mcp_gateway_list_resources, hs]

/-- C9 witness: with one connected server `s`, filtering on the unconnected
name `t` lists exactly what the unfiltered call lists. -/
theorem C9_witness :
    mcp_gateway_list_tools ⟨[("s", ⟨0, "stdio"⟩)]⟩ (some "t") (fun _ => .ok []) =
      mcp_gateway_list_tools ⟨[("s", ⟨0, "stdio"⟩)]⟩ none (fun _ => .ok []) ∧
    mcp_gateway_list_resources ⟨[("s", ⟨0, "stdio"⟩)]⟩ (some "t") (fun _ => .ok []) =
      mcp_gateway_list_resources ⟨[("s", ⟨0, "stdio"⟩)]⟩ none (fun _ => .ok []) :=
  C9_filter_fallback ⟨[("s", ⟨0, "stdio"⟩)]⟩ "t" (fun _ => .ok []) (fun _ => .ok []) rfl

/-- C10: with caching enabled, a dict argument whose serialization raises makes
`execute` fail inside the guarded block before the capability body ever runs:
the result is a failure carrying the `TypeError` message and `ran` is
`false`. -/
theorem C10_unserializable_argument_blocks_run (tool : Tool)
    (config : ToolsConfig) (md5_hexdigest : String → String)
    (d : List (String × PyValue)) (context : Option ToolExecutionContext)
    (cache : Cache) (now : Nat)
    (hc : config.enable_caching = true) (hu : dumpsVal (.dict d) = none) :
    execute tool config md5_hexdigest (.dict d) context cache now =
      { result := { success := false, error := some notSerializableMsg,
                    execution_time := some 0 },
        cache := cache, ran := false } := by
  simp [execute, validate_arguments, should_cache_result, get_cache_key, hc, hu]

/-- C10 witness: a dict holding a non-serializable object fails without
invoking the body. -/
theorem C10_witness :
    execute toolEcho {} md5stub (.dict [("x", .obj 0)]) none [] 5 =
      { result := { success := false, error := some notSerializableMsg,
                    execution_time := some 0 },
        cache := [], ran := false } :=
  C10_unserializable_argument_blocks_run toolEcho {} md5stub [("x", .obj 0)] none [] 5 rfl rfl

/-- C7 counterexample: the deadline does NOT always equal `context.timeout`
when that field is present — a present-but-zero override is discarded by
the `or` of Python, and the configured default (300) is used instead. -/
theorem C7_counterexample :
    effective_timeout { timeout := some 0 } {} = 300 ∧
    ¬ effective_timeout { timeout := some 0 } ({} : ToolsConfig) = 0 := by
  constructor <;> decide

/-- C7 amended: the deadline equals `context.timeout` when present and
nonzero, else the configured default (a present `0` falls back to the
default); a body outliving the deadline yields a failure result carrying the
timeout message, with `execution_time` populated with the deadline. -/
theorem C7_amended_deadline (config : ToolsConfig) :
    (∀ ctx : ToolExecutionContext, ctx.timeout = none →
      effective_timeout ctx config = config.execution_timeout) ∧
    (∀ ctx : ToolExecutionContext, ctx.timeout = some 0 →
      effective_timeout ctx config = config.execution_timeout) ∧
    (∀ (ctx : ToolExecutionContext) (t : Int), ctx.timeout = some t → t ≠ 0 →
      effective_timeout ctx config = t) ∧
    (∀ (tool : Tool) (va : List (String × PyValue))
       (ctx : ToolExecutionContext) (cache : Cache) (now : Nat)
       (ck : Option String),
      ((tool.run va).duration : Int) > effective_timeout ctx config →
      (runPhase tool config va ctx cache now ck).result =
        { success := false,
          error := some ("Tool execution timed out after " ++
            toString (effective_timeout ctx config) ++ " seconds"),
          execution_time := some (effective_timeout ctx config).toNat } ∧
      (runPhase tool config va ctx cache now ck).ran = true) := by
  refine ⟨?_, ?_, ?_, ?_⟩
  · intro ctx h; simp [effective_timeout, h]
  · intro ctx h; simp [effective_timeout, h]
  · intro ctx t h hne; simp [effective_timeout, h, hne]
  · intro tool va ctx cache now ck hgt
    constructor <;> simp [runPhase, hgt]

/-- C7 witness: a nonzero override of 5 is used as the deadline, and a 10-tick
body under it times out with the timeout-kind error. -/
theorem C7_witness :
    effective_timeout { timeout := some 5 } {} = 5 ∧
    (runPhase toolSlowRun {} [] { timeout := some 5 } [] 0 none).result =
      { success := false,
        error := some ("Tool execution timed out after " ++
          toString (effective_timeout { timeout := some 5 } ({} : ToolsConfig)) ++
          " seconds"),
        execution_time := some (effective_timeout { timeout := some 5 }
          ({} : ToolsConfig)).toNat } := by
  refine ⟨(C7_amended_deadline {}).2.2.1 _ 5 rfl (by decide), ?_⟩
  exact ((C7_amended_deadline {}).2.2.2 toolSlowRun [] { timeout := some 5 }
    [] 0 none (by decide)).1

/-- C5 counterexample: when the transport opens but session initialization
fails, `connect` raises AND the ConnectedServer entry for that name remains in
the table — the operation is not atomic. -/
theorem C5_counterexample :
    (mcp_gateway_connect ⟨[]⟩ "s1" "stdio"
      ⟨.ok 0, .error "init failed", .ok []⟩).1 = .error "init failed" ∧
    dictGet (mcp_gateway_connect ⟨[]⟩ "s1" "stdio"
      ⟨.ok 0, .error "init failed", .ok []⟩).2.connected_servers "s1" =
      some ⟨0, "stdio"⟩ := by
  constructor <;> rfl

/-- C5 amended: `connect` leaves the table unchanged when the name is already
connected or the transport fails to open; but when the transport opens and
session initialization then fails, `connect` raises while the entry for that
name is left in the table. -/
theorem C5_amended_connect (mgr : GatewayManager) (server_name : String)
    (transport_type : String) (fx : ConnectEffects) :
    ((dictGet mgr.connected_servers server_name).isSome = true →
      mcp_gateway_connect mgr server_name transport_type fx =
        (.error ("Server \x27" ++ server_name ++ "\x27 is already connected"),
         mgr)) ∧
    (∀ e, dictGet mgr.connected_servers server_name = none →
      fx.connect_to_server = .error e →
      (transport_type = "stdio" ∨ transport_type = "sse") →
      mcp_gateway_connect mgr server_name transport_type fx = (.error e, mgr)) ∧
    (∀ s e, dictGet mgr.connected_servers server_name = none →
      fx.connect_to_server = .ok s →
      fx.session_init = .error e →
      (transport_type = "stdio" ∨ transport_type = "sse") →
      (mcp_gateway_connect mgr server_name transport_type fx).1 = .error e ∧
      dictGet (mcp_gateway_connect mgr server_name
        transport_type fx).2.connected_servers server_name =
        some ⟨s, transport_type⟩) := by
  refine ⟨?_, ?_, ?_⟩
  · intro h; simp [mcp_gateway_connect, h]
  · intro e hnc hco ht
    rcases ht with ht | ht <;> simp [mcp_gateway_connect, hnc, hco, ht]
  · intro s e hnc hco hinit ht
    rcases ht with ht | ht <;>
      constructor <;>
        simp [mcp_gateway_connect, hnc, hco, hinit, ht, dictGet_dictSet_self]

/-- C5 witness: a duplicate name raises without change; a transport-open
failure raises without change; an initialization failure leaves the entry. -/
theorem C5_witness :
    mcp_gateway_connect ⟨[("s1", ⟨0, "stdio"⟩)]⟩ "s1" "stdio"
      ⟨.ok 1, .ok (), .ok []⟩ =
      (.error ("Server \x27" ++ "s1" ++ "\x27 is already connected"),
       ⟨[("s1", ⟨0, "stdio"⟩)]⟩) ∧
    mcp_gateway_connect ⟨[]⟩ "s1" "sse" ⟨.error "refused", .ok (), .ok []⟩ =
      (.error "refused", ⟨[]⟩) ∧
    dictGet (mcp_gateway_connect ⟨[]⟩ "s2" "stdio"
      ⟨.ok 3, .error "boom", .ok []⟩).2.connected_servers "s2" =
      some ⟨3, "stdio"⟩ := by
  refine ⟨(C5_amended_connect ⟨[("s1", ⟨0, "stdio"⟩)]⟩ "s1" "stdio"
      ⟨.ok 1, .ok (), .ok []⟩).1 rfl, ?_, ?_⟩
  · exact (C5_amended_connect ⟨[]⟩ "s1" "sse"
      ⟨.error "refused", .ok (), .ok []⟩).2.1 "refused" rfl rfl (.inr rfl)
  · exact ((C5_amended_connect ⟨[]⟩ "s2" "stdio"
      ⟨.ok 3, .error "boom", .ok []⟩).2.2 3 "boom" rfl rfl rfl (.inl rfl)).2

/-- C4 counterexample: with a 1-tick check that resolves `true` and a 100-tick
check pushing past the 30-tick global deadline, the already-resolved
capability is nevertheless recorded as `false` — partial results ARE
discarded. -/
theorem C4_counterexample :
    toolFastHC.health_check.duration ≤ 30 ∧
    toolFastHC.health_check.outcome = .ok true ∧
    hc_max_duration regC4 > 30 ∧
    dictGet (health_check_all regC4) "a" = some false := by
  exact ⟨by decide, rfl, by decide, rfl⟩

/-- C4 amended: `health_check_all` returns one entry per registered
capability; a raising check is recorded as `false`; when every check finishes
within the 30-tick deadline each capability reports its own result; when the
deadline elapses first, every capability — the already-resolved ones
included — is recorded as `false`. -/
theorem C4_amended_health_check_all (reg : ToolRegistry) :
    (health_check_all reg).map Prod.fst = reg.tools.map Prod.fst ∧
    (∀ (n : String) (t : Tool) (e : String),
      t.health_check.outcome = .error e → check_tool n t = (n, false)) ∧
    (hc_max_duration reg ≤ 30 →
      health_check_all reg = reg.tools.map (fun p => check_tool p.1 p.2)) ∧
    (hc_max_duration reg > 30 →
      health_check_all reg = reg.tools.map (fun p => (p.1, false))) := by
  refine ⟨?_, ?_, ?_, ?_⟩
  · unfold health_check_all
    split
    · rw [List.map_map]
      apply List.map_congr_left
      intro p _
      show (check_tool p.1 p.2).1 = p.1
      unfold check_tool
      cases p.2.health_check.outcome <;> rfl
    · rw [List.map_map]
      apply List.map_congr_left
      intro p _
      rfl
  · intro n t e h; simp [check_tool, h]
  · intro h; unfold health_check_all; rw [if_pos h]
  · intro h; unfold health_check_all; rw [if_neg (by omega)]

/-- C4 witness: a raising check maps to `false`; with the slow registry the
deadline elapses and everything is `false`; with the all-fast registry each
result is kept. -/
theorem C4_witness :
    check_tool "c" toolBadHC = ("c", false) ∧
    health_check_all regC4 = regC4.tools.map (fun p => (p.1, false)) ∧
    health_check_all regOne = regOne.tools.map (fun p => check_tool p.1 p.2) := by
  refine ⟨(C4_amended_health_check_all regC4).2.1 "c" toolBadHC "down" rfl, ?_, ?_⟩
  · exact (C4_amended_health_check_all regC4).2.2.2 (by decide)
  · exact (C4_amended_health_check_all regOne).2.2.1 (by decide)

/-- C3 counterexample: the claimed universal hit property fails for a cached
`None`.  With the `noop` capability (body returns `None`), a fresh cache entry
holding `.null` under the key `execute` computes — age 1, far below the
3600-tick TTL — is NOT served: `execute` re-invokes the body (`ran = true`)
and returns no `cached:true` metadata, because line 241 cannot distinguish a
cached `None` from a miss. -/
theorem C3_counterexample :
    get_cache_key md5stub toolNone.name [] =
      .ok "noop:0123456789abcdef0123456789abcdef" ∧
    (1 : Nat) - 0 ≤ ({} : ToolsConfig).cache_ttl ∧
    (execute toolNone {} md5stub (.dict []) none
      [("noop:0123456789abcdef0123456789abcdef", ⟨.null, 0⟩)] 1).ran = true ∧
    (execute toolNone {} md5stub (.dict []) none
      [("noop:0123456789abcdef0123456789abcdef", ⟨.null, 0⟩)] 1).result.metadata
      = none := by
  exact ⟨rfl, by decide, rfl, rfl⟩

/-- C3 amended: with caching enabled — a successful miss populates the cache
under the computed key with the completion timestamp; a later call finding an
entry aged at most `ttl` whose cached value is not `None` returns it with
`metadata=[cached:true]` without invoking the body and leaves the cache
unchanged; a fresh cached `None` is indistinguishable from a miss and the body
is invoked again; a call finding an entry aged more than `ttl` evicts it on
that read and does invoke the body again. -/
theorem C3_cache_hit_and_expiry :
    (∀ (tool : Tool) (config : ToolsConfig) (md5_hexdigest : String → String)
       (d : List (String × PyValue)) (k : String)
       (context : Option ToolExecutionContext) (cache : Cache)
       (now dur : Nat) (v : PyValue),
      config.enable_caching = true →
      get_cache_key md5_hexdigest tool.name d = .ok k →
      dictGet cache k = none →
      tool.run d = ⟨dur, .ok v⟩ →
      (dur : Int) ≤ effective_timeout (context.getD {}) config →
      execute tool config md5_hexdigest (.dict d) context cache now =
        { result := { success := true, data := some v,
                      execution_time := some dur },
          cache := dictSet cache k ⟨v, now + dur⟩, ran := true }) ∧
    (∀ (tool : Tool) (config : ToolsConfig) (md5_hexdigest : String → String)
       (d : List (String × PyValue)) (k : String)
       (context : Option ToolExecutionContext) (cache : Cache)
       (now ts : Nat) (v : PyValue),
      config.enable_caching = true →
      get_cache_key md5_hexdigest tool.name d = .ok k →
      dictGet cache k = some ⟨v, ts⟩ →
      now - ts ≤ config.cache_ttl →
      v ≠ .null →
      execute tool config md5_hexdigest (.dict d) context cache now =
        { result := { success := true, data := some v,
                      metadata := some [("cached", .bool true)],
                      execution_time := some 0 },
          cache := cache, ran := false }) ∧
    (∀ (tool : Tool) (config : ToolsConfig) (md5_hexdigest : String → String)
       (d : List (String × PyValue)) (k : String)
       (context : Option ToolExecutionContext) (cache : Cache)
       (now ts : Nat),
      config.enable_caching = true →
      get_cache_key md5_hexdigest tool.name d = .ok k →
      dictGet cache k = some ⟨.null, ts⟩ →
      now - ts ≤ config.cache_ttl →
      (execute tool config md5_hexdigest (.dict d) context cache now).ran
        = true) ∧
    (∀ (tool : Tool) (config : ToolsConfig) (md5_hexdigest : String → String)
       (d : List (String × PyValue)) (k : String)
       (context : Option ToolExecutionContext) (cache : Cache)
       (now ts : Nat) (v : PyValue),
      config.enable_caching = true →
      get_cache_key md5_hexdigest tool.name d = .ok k →
      dictGet cache k = some ⟨v, ts⟩ →
      now - ts > config.cache_ttl →
      get_cached_result config cache now k = (.null, dictErase cache k) ∧
      (execute tool config md5_hexdigest (.dict d) context cache now).ran
        = true) := by
  refine ⟨?_, ?_, ?_, ?_⟩
  · intro tool config md5_hexdigest d k context cache now dur v hc hk hmiss hrun hle
    simp [execute, validate_arguments, should_cache_result, hc, hk,
      get_cached_result, hmiss, is_not_none, runPhase, hrun, not_lt.2 hle,
      cache_result]
  · intro tool config md5_hexdigest d k context cache now ts v hc hk hhit hfresh hv
    have hnn : is_not_none v = true := by
      cases v <;> first | exact absurd rfl hv | rfl
    simp [execute, validate_arguments, should_cache_result, hc, hk,
      get_cached_result, hhit, not_lt.2 hfresh, hnn]
  · intro tool config md5_hexdigest d k context cache now ts hc hk hhit hfresh
    simp only [execute, validate_arguments, should_cache_result, hc, if_true, hk]
    simp [get_cached_result, hc, hhit, not_lt.2 hfresh, is_not_none,
      (runPhase_shape tool config d (context.getD {}) cache now (some k)).2.2]
  · intro tool config md5_hexdigest d k context cache now ts v hc hk hhit hstale
    have hev : get_cached_result config cache now k =
        (.null, dictErase cache k) := by
      simp [get_cached_result, hc, hhit, hstale]
    refine ⟨hev, ?_⟩
    simp only [execute, validate_arguments, should_cache_result, hc, if_true, hk]
    simp [hev, is_not_none, (runPhase_shape tool config d (context.getD {})
      (dictErase cache k) now (some k)).2.2]

/-- C3 witness: `echo` populates the cache at key `echo:<digest>`; a repeat
3 ticks later is served from the cache without running; a fresh cached `None`
makes `noop` run again; and a repeat after the 3600-tick TTL evicts on read
and runs again. -/
theorem C3_witness :
    execute toolEcho {} md5stub (.dict [("x", .int 1)]) none ([] : Cache) 0 =
      { result := { success := true, data := some (.int 7),
                    execution_time := some 2 },
        cache := dictSet ([] : Cache)
          ("echo" ++ ":" ++ md5stub "\x7b\x22x\x22: 1\x7d") ⟨.int 7, 0 + 2⟩,
        ran := true } ∧
    execute toolEcho {} md5stub (.dict [("x", .int 1)]) none
        [("echo:0123456789abcdef0123456789abcdef", ⟨.int 7, 2⟩)] 5 =
      { result := { success := true, data := some (.int 7),
                    metadata := some [("cached", .bool true)],
                    execution_time := some 0 },
        cache := [("echo:0123456789abcdef0123456789abcdef", ⟨.int 7, 2⟩)],
        ran := false } ∧
    (execute toolNone {} md5stub (.dict []) none
        [("noop:0123456789abcdef0123456789abcdef", ⟨.null, 2⟩)] 5).ran
      = true ∧
    (execute toolEcho {} md5stub (.dict [("x", .int 1)]) none
        [("echo:0123456789abcdef0123456789abcdef", ⟨.int 7, 2⟩)] 4000).ran
      = true := by
  refine ⟨?_, ?_, ?_, ?_⟩
  · exact C3_cache_hit_and_expiry.1 toolEcho {} md5stub [("x", .int 1)] _
      none ([] : Cache) 0 2 (.int 7) rfl rfl rfl rfl (by decide)
  · exact C3_cache_hit_and_expiry.2.1 toolEcho {} md5stub [("x", .int 1)]
      "echo:0123456789abcdef0123456789abcdef" none _ 5 2 (.int 7)
      rfl rfl rfl (by decide) (by simp)
  · exact C3_cache_hit_and_expiry.2.2.1 toolNone {} md5stub []
      "noop:0123456789abcdef0123456789abcdef" none
      [("noop:0123456789abcdef0123456789abcdef", ⟨.null, 2⟩)] 5 2
      rfl rfl rfl (by decide)
  · exact (C3_cache_hit_and_expiry.2.2.2 toolEcho {} md5stub [("x", .int 1)]
      "echo:0123456789abcdef0123456789abcdef" none
      [("echo:0123456789abcdef0123456789abcdef", ⟨.int 7, 2⟩)] 4000 2 (.int 7)
      rfl rfl rfl (by decide)).2

/-- C6 counterexample: re-registering the same tool name under a second
category adds it to the new category without removing it from the old one, so
the name appears in the lists of TWO categories, refuting "exactly one category". -/
theorem C6_counterexample :
    ((register_tool (register_tool {} toolT "a") toolT "b").categories.filter
      (fun p => p.2.contains "t")).length = 2 ∧
    ¬ ((register_tool (register_tool {} toolT "a") toolT "b").categories.filter
      (fun p => p.2.contains "t")).length ≤ 1 := by
  exact ⟨rfl, by decide⟩

/-- C6 amended: after any sequence of register/unregister operations every
category list is duplicate-free (`listTools(category)` never repeats a name),
and re-registering the same name under the SAME category leaves the category
index unchanged; but a name re-registered under a different category stays in
both lists. -/
theorem C6_amended_category_membership :
    (∀ (ops : List RegOp) (p : String × List String),
      p ∈ (applyOps ops).categories → p.2.Nodup) ∧
    (∀ (reg : ToolRegistry) (t : Tool) (c : String),
      (register_tool (register_tool reg t c) t c).categories =
        (register_tool reg t c).categories) := by
  constructor
  · intro ops
    suffices h : ∀ (reg : ToolRegistry),
        (∀ p ∈ reg.categories, p.2.Nodup) →
        ∀ p ∈ (ops.foldl applyOp reg).categories, p.2.Nodup by
      intro p hp
      exact h {} (by intro p hp; cases hp) p hp
    induction ops with
    | nil => intro reg hreg p hp; exact hreg p hp
    | cons op rest ih =>
        intro reg hreg
        refine ih (applyOp reg op) ?_
        cases op with
        | reg t c => exact catInv_register reg t c hreg
        | unreg n => exact catInv_unregister reg n hreg
  · intro reg t c
    have hsome : (dictGet (register_tool reg t c).categories c).isSome = true := by
      have hfst : ∀ p, (add_to_category t.name c p).1 = p.1 := fun p => by
        unfold add_to_category; split <;> rfl
      rw [show (register_tool reg t c).categories =
        (if (dictGet reg.categories c).isNone then
          reg.categories ++ [(c, [])] else reg.categories).map
            (add_to_category t.name c) from rfl]
      rw [dictGet_isSome_map _ _ hfst]
      by_cases hc : (dictGet reg.categories c).isNone
      · rw [if_pos hc, dictGet_append]
        rw [Option.isNone_iff_eq_none] at hc
        simp [hc, dictGet]
      · rw [if_neg hc]
        simp [Option.isNone_iff_eq_none] at hc
        simp [Option.isSome_iff_ne_none, hc]
    show ((if (dictGet (register_tool reg t c).categories c).isNone then
        (register_tool reg t c).categories ++ [(c, [])]
      else (register_tool reg t c).categories).map
        (add_to_category t.name c)) = (register_tool reg t c).categories
    rw [if_neg (by simp [Option.isNone_iff_eq_none,
      Option.isSome_iff_ne_none] at hsome ⊢; exact hsome)]
    show ((if (dictGet reg.categories c).isNone then
        reg.categories ++ [(c, [])] else reg.categories).map
          (add_to_category t.name c)).map (add_to_category t.name c) =
      (if (dictGet reg.categories c).isNone then
        reg.categories ++ [(c, [])] else reg.categories).map
          (add_to_category t.name c)
    rw [List.map_map]
    apply List.map_congr_left
    intro q _
    exact add_to_category_idem t.name c q

/-- C6 witness: after registering `t` in `a`, then in `b`, the `a` list is the
duplicate-free `["t"]`; and re-registering in the same category changes
nothing. -/
theorem C6_witness :
    ("a", ["t"]) ∈ (applyOps [.reg toolT "a", .reg toolT "b"]).categories ∧
    List.Nodup ["t"] ∧
    (register_tool (register_tool {} toolT "a") toolT "a").categories =
      (register_tool {} toolT "a").categories := by
  refine ⟨by decide, ?_, C6_amended_category_membership.2 {} toolT "a"⟩
  exact C6_amended_category_membership.1 [.reg toolT "a", .reg toolT "b"]
    ("a", ["t"]) (by decide)

/-- C8: the cache key is a function of the canonical serialization — equal
serializations give equal keys, and in particular two argument maps holding
the same bindings in different insertion orders (no duplicate keys) give equal
keys; keys of distinct capability names always differ because the name
prefixes the (fixed-width, 32-character) digest. -/
theorem C8_cache_key_canonical :
    (∀ (md5_hexdigest : String → String) (name : String)
       (a₁ a₂ : List (String × PyValue)),
      dumpsVal (.dict a₁) = dumpsVal (.dict a₂) →
      get_cache_key md5_hexdigest name a₁ = get_cache_key md5_hexdigest name a₂) ∧
    (∀ (md5_hexdigest : String → String) (name : String)
       (a₁ a₂ : List (String × PyValue)),
      a₁.Perm a₂ → (a₁.map Prod.fst).Nodup →
      get_cache_key md5_hexdigest name a₁ = get_cache_key md5_hexdigest name a₂) ∧
    (∀ (md5_hexdigest : String → String) (n₁ n₂ : String)
       (a₁ a₂ : List (String × PyValue)) (k₁ k₂ : String),
      (∀ s, (md5_hexdigest s).length = 32) → n₁ ≠ n₂ →
      get_cache_key md5_hexdigest n₁ a₁ = .ok k₁ →
      get_cache_key md5_hexdigest n₂ a₂ = .ok k₂ → k₁ ≠ k₂) := by
  refine ⟨?_, ?_, ?_⟩
  · intro md5_hexdigest name a₁ a₂ h
    unfold get_cache_key
    rw [h]
  · intro md5_hexdigest name a₁ a₂ hp hnd
    unfold get_cache_key
    rw [dumps_dict_perm hp hnd]
  · intro md5_hexdigest n₁ n₂ a₁ a₂ k₁ k₂ hlen hne hk₁ hk₂ heq
    unfold get_cache_key at hk₁ hk₂
    cases hd₁ : dumpsVal (.dict a₁) with
    | none => rw [hd₁] at hk₁; cases hk₁
    | some s₁ =>
        cases hd₂ : dumpsVal (.dict a₂) with
        | none => rw [hd₂] at hk₂; cases hk₂
        | some s₂ =>
            rw [hd₁] at hk₁
            rw [hd₂] at hk₂
            have e₁ : n₁ ++ ":" ++ md5_hexdigest s₁ = k₁ := by
              injection hk₁
            have e₂ : n₂ ++ ":" ++ md5_hexdigest s₂ = k₂ := by
              injection hk₂
            rw [← e₁, ← e₂] at heq
            have hdata := congrArg String.data heq
            rw [String.data_append, String.data_append,
                String.data_append, String.data_append] at hdata
            rw [List.append_assoc, List.append_assoc] at hdata
            have hlen2 : (":".data ++ (md5_hexdigest s₁).data).length =
                (":".data ++ (md5_hexdigest s₂).data).length := by
              have l₁ : (md5_hexdigest s₁).data.length = 32 := hlen s₁
              have l₂ : (md5_hexdigest s₂).data.length = 32 := hlen s₂
              simp [l₁, l₂]
            have := (List.append_inj' hdata hlen2).1
            exact hne (String.ext this)

/-- C8 witness: swapping the insertion order of two bindings leaves the key
unchanged, and two different tool names never share a key (here over the empty
argument map, whose canonical serialization is the two-character object). -/
theorem C8_witness :
    get_cache_key md5stub "tool" [("b", .int 1), ("a", .int 2)] =
      get_cache_key md5stub "tool" [("a", .int 2), ("b", .int 1)] ∧
    ("x" ++ ":" ++ md5stub "\x7b\x7d") ≠ ("y" ++ ":" ++ md5stub "\x7b\x7d") := by
  constructor
  · exact C8_cache_key_canonical.2.1 md5stub "tool"
      [("b", .int 1), ("a", .int 2)] [("a", .int 2), ("b", .int 1)]
      (List.Perm.swap (("a", PyValue.int 2) : String × PyValue)
        ("b", PyValue.int 1) []) (by decide)
  · exact C8_cache_key_canonical.2.2 md5stub "x" "y" [] [] _ _
      (fun s => rfl) (by decide) rfl rfl

end OllamaMCP
